import Mathlib

/-!
Shallow embedding of `machine_learning/loss_functions.py`: a library of
independent scalar loss functions over numeric arrays.  Arrays are modelled
as (nested) lists of rationals (`List ℚ`); integer label arrays as lists of
integers.  The transcendental primitives `np.log`, `np.exp`, `np.log1p` and
the float power `**` are taken as function parameters of the embeddings that
use them, since every claim about those functions concerns validation and
data flow, not the numeric value of the transcendental itself.
`contrastive_loss` is additionally embedded over `ℝ` with `Real.sqrt`,
because one claim is about its exact Euclidean-distance value.
Each Python `raise ValueError(...)` is modelled as an `Except.error` carrying
the error kind that corresponds to the raised message; a NumPy fancy-indexing
failure (out-of-bounds row selection) is the distinct kind `indexError`.
-/

namespace LossFunctions

/-- The validation failures of the module, one constructor per distinct
`ValueError` message in the source. -/
inductive InvalidKind
  | lengthMismatch
  | shapeMismatch
  | notOneHot
  | predNotNormalized
  | invalidLabel
  | batchMismatch
  | sentenceLengthMismatch
  | labelTooLarge
  | pairAxisNot2
  | invalidTarget
  deriving DecidableEq

/-- Errors a call can signal: an `InvalidInput` validation error (a Python
`ValueError`) or a NumPy `IndexError` from out-of-bounds array indexing. -/
inductive PyErr
  | invalidInput (k : InvalidKind)
  | indexError
  deriving DecidableEq

instance {ε α : Type} [DecidableEq ε] [DecidableEq α] :
    DecidableEq (Except ε α) := fun a b =>
  match a, b with
  | .error e, .error e' =>
    if h : e = e' then .isTrue (by rw [h]) else .isFalse (by simp [h])
  | .ok v, .ok v' =>
    if h : v = v' then .isTrue (by rw [h]) else .isFalse (by simp [h])
  | .error _, .ok _ => .isFalse (by simp)
  | .ok _, .error _ => .isFalse (by simp)

/-- `np.mean` over a nonempty 1-D array.  `np.mean` of an empty array is
NaN, which `ℚ` cannot represent; this total function collapses that case to
0 and is used only where a claim concerns the identity of the returned
expression with the mean, never the value at the empty array — `npMean`
below is the NaN-faithful model. -/
def meanQ (l : List ℚ) : ℚ := l.sum / l.length

/-- NaN-faithful `np.mean`: `none` models the NaN that `np.mean` returns on
an empty array; on a nonempty array the mean is an ordinary rational. -/
def npMean (l : List ℚ) : Option ℚ :=
  if l.length = 0 then none else some (meanQ l)

/-- `np.clip(x, lo, hi) = np.minimum(hi, np.maximum(x, lo))`, elementwise. -/
def clipQ (lo hi x : ℚ) : ℚ := min hi (max lo x)

/-- `np.isclose(a, b, rtol, atol)`: `|a - b| ≤ atol + rtol * |b|`. -/
def np_isclose (rtol atol a b : ℚ) : Prop := |a - b| ≤ atol + rtol * |b|

instance (rtol atol a b : ℚ) : Decidable (np_isclose rtol atol a b) := by
  unfold np_isclose; infer_instance

/-- The NumPy shape of a 2-D array: (number of rows, row length). -/
def shape2 {α : Type} (m : List (List α)) : ℕ × ℕ := (m.length, (m.headD []).length)

/-- `binary_cross_entropy(y_true, y_pred, epsilon)`; `rlog` stands for
`np.log`. -/
def binary_cross_entropy (rlog : ℚ → ℚ) (y_true y_pred : List ℚ)
    (epsilon : ℚ) : Except PyErr ℚ :=
  if y_true.length ≠ y_pred.length then .error (.invalidInput .lengthMismatch)
  else
    let clipped := y_pred.map (clipQ epsilon (1 - epsilon))
    let bce_loss := List.zipWith
      (fun y p => -(y * rlog p + (1 - y) * rlog (1 - p))) y_true clipped
    .ok (meanQ bce_loss)

/-- `binary_focal_cross_entropy(y_true, y_pred, gamma, alpha, epsilon)`;
`rlog` stands for `np.log` and `rpow x g` for the float power `x ** g`. -/
def binary_focal_cross_entropy (rlog : ℚ → ℚ) (rpow : ℚ → ℚ → ℚ)
    (y_true y_pred : List ℚ) (gamma alpha epsilon : ℚ) : Except PyErr ℚ :=
  if y_true.length ≠ y_pred.length then .error (.invalidInput .lengthMismatch)
  else
    let clipped := y_pred.map (clipQ epsilon (1 - epsilon))
    let bcfe_loss := List.zipWith
      (fun y p => -(alpha * rpow (1 - p) gamma * y * rlog p
        + (1 - alpha) * rpow p gamma * (1 - y) * rlog (1 - p))) y_true clipped
    .ok (meanQ bcfe_loss)

/-- `categorical_cross_entropy(y_true, y_pred, epsilon)`; `rlog` stands for
`np.log`.  The three validation steps mirror the source in order: shape
equality, one-hot `y_true` (all entries in {0,1} and every row summing
to 1), and each `y_pred` row summing to 1 up to
`np.isclose(·, 1, rtol=epsilon, atol=epsilon)`. -/
def categorical_cross_entropy (rlog : ℚ → ℚ) (y_true y_pred : List (List ℚ))
    (epsilon : ℚ) : Except PyErr ℚ :=
  if shape2 y_true ≠ shape2 y_pred then .error (.invalidInput .shapeMismatch)
  else if (∃ r ∈ y_true, ∃ x ∈ r, x ≠ 0 ∧ x ≠ 1) ∨ (∃ r ∈ y_true, r.sum ≠ 1) then
    .error (.invalidInput .notOneHot)
  else if ¬ (∀ r ∈ y_pred, np_isclose epsilon epsilon r.sum 1) then
    .error (.invalidInput .predNotNormalized)
  else
    let clipped := y_pred.map (fun r => r.map (clipQ epsilon 1))
    .ok (-(List.zipWith
      (fun rt rp => (List.zipWith (fun a b => a * b) rt (rp.map rlog)).sum)
      y_true clipped).sum)

/-- `hinge_loss(y_true, y_pred)`. -/
def hinge_loss (y_true y_pred : List ℚ) : Except PyErr ℚ :=
  if y_true.length ≠ y_pred.length then .error (.invalidInput .lengthMismatch)
  else if ∃ x ∈ y_true, x ≠ -1 ∧ x ≠ 1 then .error (.invalidInput .invalidLabel)
  else
    let hinge_losses := List.zipWith (fun y p => max 0 (1 - y * p)) y_true y_pred
    .ok (meanQ hinge_losses)

/-- `huber_loss(y_true, y_pred, delta)`: elementwise
`np.where(|e| <= delta, 0.5 * e ** 2, delta * (|e| - 0.5 * delta))`, then
mean. -/
def huber_loss (y_true y_pred : List ℚ) (delta : ℚ) : Except PyErr ℚ :=
  if y_true.length ≠ y_pred.length then .error (.invalidInput .lengthMismatch)
  else
    .ok (meanQ (List.zipWith (fun a b =>
      if |a - b| ≤ delta then 0.5 * (a - b) ^ 2
      else delta * (|a - b| - 0.5 * delta)) y_true y_pred))

/-- `mean_squared_error(y_true, y_pred)`. -/
def mean_squared_error (y_true y_pred : List ℚ) : Except PyErr ℚ :=
  if y_true.length ≠ y_pred.length then .error (.invalidInput .lengthMismatch)
  else .ok (meanQ (List.zipWith (fun a b => (a - b) ^ 2) y_true y_pred))

/-- `mean_absolute_error(y_true, y_pred)`. -/
def mean_absolute_error (y_true y_pred : List ℚ) : Except PyErr ℚ :=
  if y_true.length ≠ y_pred.length then .error (.invalidInput .lengthMismatch)
  else .ok (meanQ (List.zipWith (fun a b => |a - b|) y_true y_pred))

/-- `mean_squared_error(y_true, y_pred)` with `np.mean` modelled
NaN-faithfully by `npMean`: the returned scalar is `none` (NaN) exactly when
the error array is empty. -/
def mean_squared_error_nan (y_true y_pred : List ℚ) : Except PyErr (Option ℚ) :=
  if y_true.length ≠ y_pred.length then .error (.invalidInput .lengthMismatch)
  else .ok (npMean (List.zipWith (fun a b => (a - b) ^ 2) y_true y_pred))

/-- `mean_absolute_error(y_true, y_pred)` with `np.mean` modelled
NaN-faithfully by `npMean`. -/
def mean_absolute_error_nan (y_true y_pred : List ℚ) : Except PyErr (Option ℚ) :=
  if y_true.length ≠ y_pred.length then .error (.invalidInput .lengthMismatch)
  else .ok (npMean (List.zipWith (fun a b => |a - b|) y_true y_pred))

/-- `mean_squared_logarithmic_error(y_true, y_pred)`; `rlog1p` stands for
`np.log1p`. -/
def mean_squared_logarithmic_error (rlog1p : ℚ → ℚ)
    (y_true y_pred : List ℚ) : Except PyErr ℚ :=
  if y_true.length ≠ y_pred.length then .error (.invalidInput .lengthMismatch)
  else .ok (meanQ (List.zipWith (fun a b => (rlog1p a - rlog1p b) ^ 2) y_true y_pred))

/-- `mean_absolute_percentage_error(y_true, y_pred, epsilon)`: zero entries
of `y_true` are replaced by `epsilon` before dividing. -/
def mean_absolute_percentage_error (y_true y_pred : List ℚ)
    (epsilon : ℚ) : Except PyErr ℚ :=
  if y_true.length ≠ y_pred.length then .error (.invalidInput .lengthMismatch)
  else
    let y_true2 := y_true.map (fun x => if x = 0 then epsilon else x)
    .ok (meanQ (List.zipWith (fun t p => |(t - p) / t|) y_true2 y_pred))

/-- `y_pred.shape[2]` of a 3-D prediction array: the vocabulary size. -/
def vocabSize (y_pred : List (List (List ℚ))) : ℕ :=
  ((y_pred.headD []).headD []).length

/-- Row `i` of `np.eye(v)`: the `i`-th standard unit vector of length `v`. -/
def eyeRow (v i : ℕ) : List ℚ :=
  (List.range v).map (fun j => if j = i then 1 else 0)

/-- Python indexing of an array of `v` rows at integer index `w`: indices in
`[0, v)` are direct, indices in `[-v, 0)` wrap around, everything else is an
`IndexError`. -/
def pyIndex (v : ℕ) (w : ℤ) : Option ℕ :=
  if 0 ≤ w ∧ w < v then some w.toNat
  else if -(v : ℤ) ≤ w ∧ w < 0 then some ((v : ℤ) + w).toNat
  else none

/-- The `filter_matrix` of `perplexity_loss`: for every word label, the
corresponding row of `np.eye(vocab_size)`; `none` when some label is out of
bounds (a NumPy `IndexError`). -/
def buildFilter (v : ℕ) (y_true : List (List ℤ)) :
    Option (List (List (List ℚ))) :=
  y_true.mapM (fun sentence => sentence.mapM (fun word =>
    (pyIndex v word).map (eyeRow v)))

/-- Dot product of two rows, as `np.sum(a * b)` along the last axis. -/
def dotQ (a b : List ℚ) : ℚ := (List.zipWith (fun x y => x * y) a b).sum

/-- `perplexity_loss(y_true, y_pred, epsilon)`; `rlog` stands for `np.log`
and `rexp` for `np.exp`.  Validation order mirrors the source: batch size,
sentence length, then `np.max(y_true) > vocab_size` (strict).  After
validation the one-hot `filter_matrix` is built row by row; an out-of-range
label there is an `IndexError`, not a `ValueError`. -/
def perplexity_loss (rlog rexp : ℚ → ℚ) (y_true : List (List ℤ))
    (y_pred : List (List (List ℚ))) (epsilon : ℚ) : Except PyErr ℚ :=
  let vocab_size := vocabSize y_pred
  if y_true.length ≠ y_pred.length then .error (.invalidInput .batchMismatch)
  else if (y_true.headD []).length ≠ (y_pred.headD []).length then
    .error (.invalidInput .sentenceLengthMismatch)
  else if ∃ s ∈ y_true, ∃ w ∈ s, (vocab_size : ℤ) < w then
    .error (.invalidInput .labelTooLarge)
  else
    match buildFilter vocab_size y_true with
    | none => .error .indexError
    | some filter_matrix =>
      let true_class_pred := List.zipWith
        (fun sp sf => List.zipWith (fun row oh => clipQ epsilon 1 (dotQ row oh)) sp sf)
        y_pred filter_matrix
      let perp_losses := true_class_pred.map
        (fun sentence => rexp (-(meanQ (sentence.map rlog))))
      .ok (meanQ perp_losses)

/-- `contrastive_loss(inputs, target, m)` over `ℝ`, with the genuine
Euclidean norm.  Validation order mirrors the source: batch size, second
axis equal to 2, target values in {0, 1}.  The per-pair distance is
`np.linalg.norm` of the difference of the pair's two vectors; similar pairs
(target 0) contribute the distance, dissimilar pairs (target nonzero)
contribute `max(0, m - d)`. -/
noncomputable def contrastive_loss (inputs : List (List (List ℝ)))
    (target : List ℤ) (m : ℝ) : Except PyErr ℝ :=
  if inputs.length ≠ target.length then .error (.invalidInput .batchMismatch)
  else if (inputs.headD []).length ≠ 2 then .error (.invalidInput .pairAxisNot2)
  else if ∃ t ∈ target, t ≠ 1 ∧ t ≠ 0 then .error (.invalidInput .invalidTarget)
  else
    let euclidean_dist := inputs.map (fun p =>
      Real.sqrt (((List.zipWith (fun a b => a - b) (p.headD [])
        ((p.drop 1).headD [])).map (fun x => x ^ 2)).sum))
    let error_similar :=
      (List.zipWith (fun t d => if t = 0 then d else 0) target euclidean_dist).sum
    let error_dissimilar :=
      (List.zipWith (fun t d => if t ≠ 0 then max 0 (m - d) else 0)
        target euclidean_dist).sum
    .ok (error_similar + error_dissimilar)

/-- The Euclidean distance between two vectors, as `np.linalg.norm` of their
elementwise difference: the square root of the sum of squared differences. -/
noncomputable def euclideanDist (u v : List ℝ) : ℝ :=
  Real.sqrt (((List.zipWith (fun a b => a - b) u v).map (fun x => x ^ 2)).sum)

/-!
Store model for the mutation claim.  NumPy arrays live in a store; a call
receives store indices for its array arguments.  Every NumPy operation of
the source that produces an array (`np.clip`, elementwise arithmetic,
`np.where`, masking, the one-hot filter matrix, ...) allocates a fresh
array, appended at the end of the store — mirroring that the source never
uses in-place (`out=`/augmented-assignment) operations.  A call returns the
final store together with its result.
-/

/-- A NumPy value held in the store: a 1-D, 2-D or 3-D float array, or a
1-D or 2-D integer array. -/
inductive NpValue
  | a1 (v : List ℚ)
  | a2 (v : List (List ℚ))
  | a3 (v : List (List (List ℚ)))
  | i1 (v : List ℤ)
  | i2 (v : List (List ℤ))

/-- The array store. -/
abbrev Store : Type := List NpValue

/-- Fetch a 1-D float array from the store. -/
def getA1 (st : Store) (i : ℕ) : List ℚ :=
  match st.getD i (.a1 []) with | .a1 v => v | _ => []

/-- Fetch a 2-D float array from the store. -/
def getA2 (st : Store) (i : ℕ) : List (List ℚ) :=
  match st.getD i (.a2 []) with | .a2 v => v | _ => []

/-- Fetch a 3-D float array from the store. -/
def getA3 (st : Store) (i : ℕ) : List (List (List ℚ)) :=
  match st.getD i (.a3 []) with | .a3 v => v | _ => []

/-- Fetch a 1-D integer array from the store. -/
def getI1 (st : Store) (i : ℕ) : List ℤ :=
  match st.getD i (.i1 []) with | .i1 v => v | _ => []

/-- Fetch a 2-D integer array from the store. -/
def getI2 (st : Store) (i : ℕ) : List (List ℤ) :=
  match st.getD i (.i2 []) with | .i2 v => v | _ => []

/-- Store-level `binary_cross_entropy`: reads the two argument arrays,
allocates the clipped array and the elementwise loss array. -/
def binary_cross_entropy_st (rlog : ℚ → ℚ) (st : Store) (iTrue iPred : ℕ)
    (epsilon : ℚ) : Store × Except PyErr ℚ :=
  let y_true := getA1 st iTrue
  let y_pred := getA1 st iPred
  if y_true.length ≠ y_pred.length then (st, .error (.invalidInput .lengthMismatch))
  else
    let clipped := y_pred.map (clipQ epsilon (1 - epsilon))
    let bce_loss := List.zipWith
      (fun y p => -(y * rlog p + (1 - y) * rlog (1 - p))) y_true clipped
    (st ++ [.a1 clipped, .a1 bce_loss], .ok (meanQ bce_loss))

/-- Store-level `binary_focal_cross_entropy`. -/
def binary_focal_cross_entropy_st (rlog : ℚ → ℚ) (rpow : ℚ → ℚ → ℚ)
    (st : Store) (iTrue iPred : ℕ) (gamma alpha epsilon : ℚ) :
    Store × Except PyErr ℚ :=
  let y_true := getA1 st iTrue
  let y_pred := getA1 st iPred
  if y_true.length ≠ y_pred.length then (st, .error (.invalidInput .lengthMismatch))
  else
    let clipped := y_pred.map (clipQ epsilon (1 - epsilon))
    let bcfe_loss := List.zipWith
      (fun y p => -(alpha * rpow (1 - p) gamma * y * rlog p
        + (1 - alpha) * rpow p gamma * (1 - y) * rlog (1 - p))) y_true clipped
    (st ++ [.a1 clipped, .a1 bcfe_loss], .ok (meanQ bcfe_loss))

/-- Store-level `categorical_cross_entropy`. -/
def categorical_cross_entropy_st (rlog : ℚ → ℚ) (st : Store) (iTrue iPred : ℕ)
    (epsilon : ℚ) : Store × Except PyErr ℚ :=
  let y_true := getA2 st iTrue
  let y_pred := getA2 st iPred
  if shape2 y_true ≠ shape2 y_pred then (st, .error (.invalidInput .shapeMismatch))
  else if (∃ r ∈ y_true, ∃ x ∈ r, x ≠ 0 ∧ x ≠ 1) ∨ (∃ r ∈ y_true, r.sum ≠ 1) then
    (st, .error (.invalidInput .notOneHot))
  else if ¬ (∀ r ∈ y_pred, np_isclose epsilon epsilon r.sum 1) then
    (st, .error (.invalidInput .predNotNormalized))
  else
    let clipped := y_pred.map (fun r => r.map (clipQ epsilon 1))
    (st ++ [.a2 clipped],
      .ok (-(List.zipWith
        (fun rt rp => (List.zipWith (fun a b => a * b) rt (rp.map rlog)).sum)
        y_true clipped).sum))

/-- Store-level `hinge_loss`. -/
def hinge_loss_st (st : Store) (iTrue iPred : ℕ) : Store × Except PyErr ℚ :=
  let y_true := getA1 st iTrue
  let y_pred := getA1 st iPred
  if y_true.length ≠ y_pred.length then (st, .error (.invalidInput .lengthMismatch))
  else if ∃ x ∈ y_true, x ≠ -1 ∧ x ≠ 1 then (st, .error (.invalidInput .invalidLabel))
  else
    let hinge_losses := List.zipWith (fun y p => max 0 (1 - y * p)) y_true y_pred
    (st ++ [.a1 hinge_losses], .ok (meanQ hinge_losses))

/-- Store-level `huber_loss`: allocates the two branch arrays and the
`np.where` result. -/
def huber_loss_st (st : Store) (iTrue iPred : ℕ) (delta : ℚ) :
    Store × Except PyErr ℚ :=
  let y_true := getA1 st iTrue
  let y_pred := getA1 st iPred
  if y_true.length ≠ y_pred.length then (st, .error (.invalidInput .lengthMismatch))
  else
    let huber_mse := List.zipWith (fun a b => 0.5 * (a - b) ^ 2) y_true y_pred
    let huber_mae := List.zipWith
      (fun a b => delta * (|a - b| - 0.5 * delta)) y_true y_pred
    let selected := List.zipWith (fun a b =>
      if |a - b| ≤ delta then 0.5 * (a - b) ^ 2
      else delta * (|a - b| - 0.5 * delta)) y_true y_pred
    (st ++ [.a1 huber_mse, .a1 huber_mae, .a1 selected], .ok (meanQ selected))

/-- Store-level `mean_squared_error`. -/
def mean_squared_error_st (st : Store) (iTrue iPred : ℕ) :
    Store × Except PyErr ℚ :=
  let y_true := getA1 st iTrue
  let y_pred := getA1 st iPred
  if y_true.length ≠ y_pred.length then (st, .error (.invalidInput .lengthMismatch))
  else
    let squared_errors := List.zipWith (fun a b => (a - b) ^ 2) y_true y_pred
    (st ++ [.a1 squared_errors], .ok (meanQ squared_errors))

/-- Store-level `mean_absolute_error`. -/
def mean_absolute_error_st (st : Store) (iTrue iPred : ℕ) :
    Store × Except PyErr ℚ :=
  let y_true := getA1 st iTrue
  let y_pred := getA1 st iPred
  if y_true.length ≠ y_pred.length then (st, .error (.invalidInput .lengthMismatch))
  else
    let abs_errors := List.zipWith (fun a b => |a - b|) y_true y_pred
    (st ++ [.a1 abs_errors], .ok (meanQ abs_errors))

/-- Store-level `mean_squared_logarithmic_error`. -/
def mean_squared_logarithmic_error_st (rlog1p : ℚ → ℚ) (st : Store)
    (iTrue iPred : ℕ) : Store × Except PyErr ℚ :=
  let y_true := getA1 st iTrue
  let y_pred := getA1 st iPred
  if y_true.length ≠ y_pred.length then (st, .error (.invalidInput .lengthMismatch))
  else
    let sle := List.zipWith (fun a b => (rlog1p a - rlog1p b) ^ 2) y_true y_pred
    (st ++ [.a1 sle], .ok (meanQ sle))

/-- Store-level `mean_absolute_percentage_error`: `np.where(y_true == 0,
epsilon, y_true)` allocates a fresh array, the local name `y_true` is merely
rebound to it. -/
def mean_absolute_percentage_error_st (st : Store) (iTrue iPred : ℕ)
    (epsilon : ℚ) : Store × Except PyErr ℚ :=
  let y_true := getA1 st iTrue
  let y_pred := getA1 st iPred
  if y_true.length ≠ y_pred.length then (st, .error (.invalidInput .lengthMismatch))
  else
    let y_true2 := y_true.map (fun x => if x = 0 then epsilon else x)
    let apd := List.zipWith (fun t p => |(t - p) / t|) y_true2 y_pred
    (st ++ [.a1 y_true2, .a1 apd], .ok (meanQ apd))

/-- Store-level `perplexity_loss`. -/
def perplexity_loss_st (rlog rexp : ℚ → ℚ) (st : Store) (iTrue iPred : ℕ)
    (epsilon : ℚ) : Store × Except PyErr ℚ :=
  let y_true := getI2 st iTrue
  let y_pred := getA3 st iPred
  let vocab_size := vocabSize y_pred
  if y_true.length ≠ y_pred.length then (st, .error (.invalidInput .batchMismatch))
  else if (y_true.headD []).length ≠ (y_pred.headD []).length then
    (st, .error (.invalidInput .sentenceLengthMismatch))
  else if ∃ s ∈ y_true, ∃ w ∈ s, (vocab_size : ℤ) < w then
    (st, .error (.invalidInput .labelTooLarge))
  else
    match buildFilter vocab_size y_true with
    | none => (st, .error .indexError)
    | some filter_matrix =>
      let true_class_pred := List.zipWith
        (fun sp sf => List.zipWith (fun row oh => clipQ epsilon 1 (dotQ row oh)) sp sf)
        y_pred filter_matrix
      let perp_losses := true_class_pred.map
        (fun sentence => rexp (-(meanQ (sentence.map rlog))))
      (st ++ [.a3 filter_matrix, .a2 true_class_pred, .a1 perp_losses],
        .ok (meanQ perp_losses))

/-- Store-level `contrastive_loss` (over `ℚ`, with `rsqrt` standing for the
square root used by `np.linalg.norm`). -/
def contrastive_loss_st (rsqrt : ℚ → ℚ) (st : Store) (iInputs iTarget : ℕ)
    (m : ℚ) : Store × Except PyErr ℚ :=
  let inputs := getA3 st iInputs
  let target := getI1 st iTarget
  if inputs.length ≠ target.length then (st, .error (.invalidInput .batchMismatch))
  else if (inputs.headD []).length ≠ 2 then
    (st, .error (.invalidInput .pairAxisNot2))
  else if ∃ t ∈ target, t ≠ 1 ∧ t ≠ 0 then
    (st, .error (.invalidInput .invalidTarget))
  else
    let diffs := inputs.map (fun p =>
      List.zipWith (fun a b => a - b) (p.headD []) ((p.drop 1).headD []))
    let euclidean_dist := diffs.map (fun d => rsqrt ((d.map (fun x => x ^ 2)).sum))
    (st ++ [.a2 diffs, .a1 euclidean_dist],
      .ok ((List.zipWith (fun t d => if t = 0 then d else 0)
              target euclidean_dist).sum
        + (List.zipWith (fun t d => if t ≠ 0 then max 0 (m - d) else 0)
              target euclidean_dist).sum))

/-! General helper lemmas. -/

theorem getD_append_left {α : Type} (l l' : List α) (d : α) (i : ℕ)
    (h : i < l.length) : (l ++ l').getD i d = l.getD i d := by
  induction l generalizing i with
  | nil => simp at h
  | cons a t ih =>
    cases i with
    | zero => rfl
    | succ n => simpa [List.getD] using ih n (by simpa using h)

theorem zipWith_self_const {α β : Type} (f : α → α → β) (c : β)
    (hf : ∀ a, f a a = c) (y : List α) :
    List.zipWith f y y = List.replicate y.length c := by
  induction y with
  | nil => rfl
  | cons a t ih => simp [hf, ih, List.replicate]

theorem zipWith_congr_of_mem {α β γ : Type} (f g : α → β → γ) :
    ∀ (l₁ : List α) (l₂ : List β),
      (∀ a ∈ l₁, ∀ b ∈ l₂, f a b = g a b) →
      List.zipWith f l₁ l₂ = List.zipWith g l₁ l₂ := by
  intro l₁
  induction l₁ with
  | nil => intro l₂ _; rfl
  | cons a t ih =>
    intro l₂ h
    cases l₂ with
    | nil => rfl
    | cons b s =>
      simp only [List.zipWith]
      rw [h a (List.mem_cons_self a t) b (List.mem_cons_self b s),
        ih s (fun x hx y hy =>
          h x (List.mem_cons_of_mem a hx) y (List.mem_cons_of_mem b hy))]

theorem meanQ_replicate_zero (n : ℕ) : meanQ (List.replicate n 0) = 0 := by
  unfold meanQ
  simp

/-! Claim theorems. -/

/-- C6 counterexample: at the empty array `y = []` both functions pass the
length check and return `np.mean([])`, which is NaN (`none`), not the
number 0 — so neither equals 0 there, refuting the claim's "for every
array y". -/
theorem mse_mae_empty_mean_is_nan :
    mean_squared_error_nan ([] : List ℚ) [] ≠ .ok (some 0) ∧
    mean_absolute_error_nan ([] : List ℚ) [] ≠ .ok (some 0) ∧
    mean_squared_error_nan ([] : List ℚ) [] = .ok none ∧
    mean_absolute_error_nan ([] : List ℚ) [] = .ok none := by
  decide

/-- C6 amended: for every nonempty array `y`, `mean_squared_error(y, y)`
and `mean_absolute_error(y, y)` both equal 0 (every elementwise error is 0,
so the nonempty mean is 0); at the empty array both return NaN instead. -/
theorem mse_mae_identical_nonempty_zero (y : List ℚ) (h : y ≠ []) :
    mean_squared_error_nan y y = .ok (some 0) ∧
    mean_absolute_error_nan y y = .ok (some 0) := by
  constructor
  · unfold mean_squared_error_nan npMean
    rw [if_neg (by simp)]
    rw [zipWith_self_const _ (0 : ℚ) (by intro a; ring) y]
    rw [if_neg (by simpa [List.length_eq_zero] using h), meanQ_replicate_zero]
  · unfold mean_absolute_error_nan npMean
    rw [if_neg (by simp)]
    rw [zipWith_self_const _ (0 : ℚ) (by intro a; simp) y]
    rw [if_neg (by simpa [List.length_eq_zero] using h), meanQ_replicate_zero]

/-- C6 amended witness: the concrete nonempty array `[1, 2]` gives loss 0
under both functions. -/
theorem mse_mae_identical_nonempty_zero_witness :
    ([1, 2] : List ℚ) ≠ [] ∧
    mean_squared_error_nan [1, 2] [1, 2] = .ok (some 0) ∧
    mean_absolute_error_nan [1, 2] [1, 2] = .ok (some 0) :=
  ⟨by decide, (mse_mae_identical_nonempty_zero [1, 2] (by decide)).1,
    (mse_mae_identical_nonempty_zero [1, 2] (by decide)).2⟩

/-- C3: for equal-length inputs `huber_loss` returns the mean of the
piecewise value `0.5*e^2` when `|e| ≤ delta` and `delta*|e| - 0.5*delta^2`
otherwise (`e = y_true - y_pred`), and the two branches agree at
`|e| = delta`. -/
theorem huber_loss_piecewise_and_continuous (y_true y_pred : List ℚ)
    (delta : ℚ) (h : y_true.length = y_pred.length) :
    huber_loss y_true y_pred delta =
      .ok (meanQ (List.zipWith (fun a b =>
        if |a - b| ≤ delta then 0.5 * (a - b) ^ 2
        else delta * |a - b| - 0.5 * delta ^ 2) y_true y_pred)) ∧
    (∀ e : ℚ, |e| = delta → 0.5 * e ^ 2 = delta * |e| - 0.5 * delta ^ 2) := by
  constructor
  · unfold huber_loss
    rw [if_neg (by simp [h])]
    have hfun : (fun a b : ℚ =>
        if |a - b| ≤ delta then 0.5 * (a - b) ^ 2
        else delta * (|a - b| - 0.5 * delta))
        = (fun a b : ℚ =>
        if |a - b| ≤ delta then 0.5 * (a - b) ^ 2
        else delta * |a - b| - 0.5 * delta ^ 2) := by
      funext a b
      by_cases hc : |a - b| ≤ delta
      · rw [if_pos hc, if_pos hc]
      · rw [if_neg hc, if_neg hc]; ring
    rw [hfun]
  · intro e he
    have h2 : e ^ 2 = delta ^ 2 := by rw [← he, sq_abs]
    rw [h2, he]
    ring

/-- C3 witness: a concrete equal-length pair exercising both branches;
`huber_loss([1,5],[2,3],1) = mean(0.5, 1.5) = 1`. -/
theorem huber_loss_piecewise_and_continuous_witness :
    ([1, 5] : List ℚ).length = ([2, 3] : List ℚ).length ∧
    huber_loss [1, 5] [2, 3] 1 = .ok 1 := by
  refine ⟨rfl, ?_⟩
  rw [(huber_loss_piecewise_and_continuous [1, 5] [2, 3] 1 rfl).1]
  norm_num [meanQ, List.zipWith]

/-- C9: `huber_loss` never validates `delta`: for every equal-length pair
and every `delta` (including 0 and negative values) it returns the mean of
the piecewise expression, never an error. -/
theorem huber_loss_no_delta_validation (y_true y_pred : List ℚ) (delta : ℚ)
    (h : y_true.length = y_pred.length) :
    huber_loss y_true y_pred delta =
      .ok (meanQ (List.zipWith (fun a b =>
        if |a - b| ≤ delta then 0.5 * (a - b) ^ 2
        else delta * (|a - b| - 0.5 * delta)) y_true y_pred)) := by
  unfold huber_loss
  rw [if_neg (by simp [h])]

/-- C9 witness: a negative `delta = -1` is accepted;
`huber_loss([0],[3],-1) = -1*(3 - 0.5*(-1)) = -3.5`. -/
theorem huber_loss_no_delta_validation_witness :
    ([0] : List ℚ).length = ([3] : List ℚ).length ∧
    huber_loss [0] [3] (-1) = .ok (-7 / 2) := by
  refine ⟨rfl, ?_⟩
  rw [huber_loss_no_delta_validation [0] [3] (-1) rfl]
  norm_num [meanQ, List.zipWith]

/-- C2: every two-array function rejects mismatched lengths (mismatched
2-D shape for `categorical_cross_entropy`) with an `InvalidInput` error
before any arithmetic, for all inputs and hyperparameters. -/
theorem length_shape_mismatch_rejected :
    (∀ (rlog : ℚ → ℚ) (y_true y_pred : List ℚ) (ε : ℚ),
      y_true.length ≠ y_pred.length →
      binary_cross_entropy rlog y_true y_pred ε =
        .error (.invalidInput .lengthMismatch)) ∧
    (∀ (rlog : ℚ → ℚ) (rpow : ℚ → ℚ → ℚ) (y_true y_pred : List ℚ) (g a ε : ℚ),
      y_true.length ≠ y_pred.length →
      binary_focal_cross_entropy rlog rpow y_true y_pred g a ε =
        .error (.invalidInput .lengthMismatch)) ∧
    (∀ (rlog : ℚ → ℚ) (y_true y_pred : List (List ℚ)) (ε : ℚ),
      shape2 y_true ≠ shape2 y_pred →
      categorical_cross_entropy rlog y_true y_pred ε =
        .error (.invalidInput .shapeMismatch)) ∧
    (∀ y_true y_pred : List ℚ,
      y_true.length ≠ y_pred.length →
      hinge_loss y_true y_pred = .error (.invalidInput .lengthMismatch)) ∧
    (∀ (y_true y_pred : List ℚ) (delta : ℚ),
      y_true.length ≠ y_pred.length →
      huber_loss y_true y_pred delta = .error (.invalidInput .lengthMismatch)) ∧
    (∀ y_true y_pred : List ℚ,
      y_true.length ≠ y_pred.length →
      mean_squared_error y_true y_pred = .error (.invalidInput .lengthMismatch)) ∧
    (∀ y_true y_pred : List ℚ,
      y_true.length ≠ y_pred.length →
      mean_absolute_error y_true y_pred = .error (.invalidInput .lengthMismatch)) ∧
    (∀ (rlog1p : ℚ → ℚ) (y_true y_pred : List ℚ),
      y_true.length ≠ y_pred.length →
      mean_squared_logarithmic_error rlog1p y_true y_pred =
        .error (.invalidInput .lengthMismatch)) ∧
    (∀ (y_true y_pred : List ℚ) (ε : ℚ),
      y_true.length ≠ y_pred.length →
      mean_absolute_percentage_error y_true y_pred ε =
        .error (.invalidInput .lengthMismatch)) := by
  refine ⟨?_, ?_, ?_, ?_, ?_, ?_, ?_, ?_, ?_⟩
  · intro rlog y_true y_pred ε h
    unfold binary_cross_entropy; rw [if_pos h]
  · intro rlog rpow y_true y_pred g a ε h
    unfold binary_focal_cross_entropy; rw [if_pos h]
  · intro rlog y_true y_pred ε h
    unfold categorical_cross_entropy; rw [if_pos h]
  · intro y_true y_pred h
    unfold hinge_loss; rw [if_pos h]
  · intro y_true y_pred delta h
    unfold huber_loss; rw [if_pos h]
  · intro y_true y_pred h
    unfold mean_squared_error; rw [if_pos h]
  · intro y_true y_pred h
    unfold mean_absolute_error; rw [if_pos h]
  · intro rlog1p y_true y_pred h
    unfold mean_squared_logarithmic_error; rw [if_pos h]
  · intro y_true y_pred ε h
    unfold mean_absolute_percentage_error; rw [if_pos h]

/-- C2 witness: each of the nine functions rejects the concrete mismatched
pair of a one-element and an empty array. -/
theorem length_shape_mismatch_rejected_witness :
    ([0] : List ℚ).length ≠ ([] : List ℚ).length ∧
    shape2 [[(0 : ℚ)]] ≠ shape2 ([] : List (List ℚ)) ∧
    binary_cross_entropy (fun _ => 0) [0] [] 1 =
      .error (.invalidInput .lengthMismatch) ∧
    binary_focal_cross_entropy (fun _ => 0) (fun _ _ => 0) [0] [] 2 (1/4) 1 =
      .error (.invalidInput .lengthMismatch) ∧
    categorical_cross_entropy (fun _ => 0) [[0]] [] 1 =
      .error (.invalidInput .shapeMismatch) ∧
    hinge_loss [0] [] = .error (.invalidInput .lengthMismatch) ∧
    huber_loss [0] [] 1 = .error (.invalidInput .lengthMismatch) ∧
    mean_squared_error [0] [] = .error (.invalidInput .lengthMismatch) ∧
    mean_absolute_error [0] [] = .error (.invalidInput .lengthMismatch) ∧
    mean_squared_logarithmic_error (fun _ => 0) [0] [] =
      .error (.invalidInput .lengthMismatch) ∧
    mean_absolute_percentage_error [0] [] 1 =
      .error (.invalidInput .lengthMismatch) := by
  refine ⟨by decide, by decide, ?_, ?_, ?_, ?_, ?_, ?_, ?_, ?_, ?_⟩
  · exact length_shape_mismatch_rejected.1 _ _ _ _ (by decide)
  · exact length_shape_mismatch_rejected.2.1 _ _ _ _ _ _ _ (by decide)
  · exact length_shape_mismatch_rejected.2.2.1 _ _ _ _ (by decide)
  · exact length_shape_mismatch_rejected.2.2.2.1 _ _ (by decide)
  · exact length_shape_mismatch_rejected.2.2.2.2.1 _ _ _ (by decide)
  · exact length_shape_mismatch_rejected.2.2.2.2.2.1 _ _ (by decide)
  · exact length_shape_mismatch_rejected.2.2.2.2.2.2.1 _ _ (by decide)
  · exact length_shape_mismatch_rejected.2.2.2.2.2.2.2.1 _ _ _ (by decide)
  · exact length_shape_mismatch_rejected.2.2.2.2.2.2.2.2 _ _ _ (by decide)

/-- C7: given equal lengths, `hinge_loss` rejects any `y_true` value outside
{-1, 1}; given matching batch sizes and pair axis 2, `contrastive_loss`
rejects any `target` value outside {0, 1}; both fail with `InvalidInput` and
return no loss value. -/
theorem hinge_contrastive_label_validation :
    (∀ y_true y_pred : List ℚ,
      y_true.length = y_pred.length →
      (∃ x ∈ y_true, x ≠ -1 ∧ x ≠ 1) →
      hinge_loss y_true y_pred = .error (.invalidInput .invalidLabel)) ∧
    (∀ (inputs : List (List (List ℝ))) (target : List ℤ) (m : ℝ),
      inputs.length = target.length →
      (inputs.headD []).length = 2 →
      (∃ t ∈ target, t ≠ 1 ∧ t ≠ 0) →
      contrastive_loss inputs target m = .error (.invalidInput .invalidTarget)) := by
  constructor
  · intro y_true y_pred h hx
    unfold hinge_loss
    rw [if_neg (by simp [h]), if_pos hx]
  · intro inputs target m hb hp ht
    unfold contrastive_loss
    rw [if_neg (by simp [hb]), if_neg (fun hne => hne hp), if_pos ht]

/-- C7 witness: `hinge_loss([10],[0])` rejects the label 10, and
`contrastive_loss([[[3],[7]]], [5], 0)` rejects the target 5. -/
theorem hinge_contrastive_label_validation_witness :
    ([10] : List ℚ).length = ([0] : List ℚ).length ∧
    (∃ x ∈ ([10] : List ℚ), x ≠ -1 ∧ x ≠ 1) ∧
    ([([(3 : ℝ)], [(7 : ℝ)])].map (fun p => [p.1, p.2])).length = ([5] : List ℤ).length ∧
    (∃ t ∈ ([5] : List ℤ), t ≠ 1 ∧ t ≠ 0) ∧
    hinge_loss [10] [0] = .error (.invalidInput .invalidLabel) ∧
    contrastive_loss [[[(3 : ℝ)], [(7 : ℝ)]]] [5] 0 =
      .error (.invalidInput .invalidTarget) := by
  refine ⟨rfl, ?_, rfl, ?_, ?_, ?_⟩
  · exact ⟨10, by simp, by norm_num⟩
  · exact ⟨5, by simp, by norm_num⟩
  · exact hinge_contrastive_label_validation.1 [10] [0] rfl
      ⟨10, by simp, by norm_num⟩
  · exact hinge_contrastive_label_validation.2 [[[(3 : ℝ)], [(7 : ℝ)]]] [5] 0
      rfl rfl ⟨5, by simp, by norm_num⟩

/-- C10: `binary_cross_entropy` and `binary_focal_cross_entropy` perform no
domain validation: for any equal-length inputs, any label values and any
prediction values they return the mean of the formula applied to the
predictions clipped to `[epsilon, 1 - epsilon]` — never an error — and
(when `epsilon ≤ 1 - epsilon`) every clipped prediction lies in
`[epsilon, 1 - epsilon]`. -/
theorem bce_bfce_no_domain_validation (rlog : ℚ → ℚ) (rpow : ℚ → ℚ → ℚ)
    (y_true y_pred : List ℚ) (gamma alpha epsilon : ℚ)
    (h : y_true.length = y_pred.length) :
    binary_cross_entropy rlog y_true y_pred epsilon =
      .ok (meanQ (List.zipWith (fun y p => -(y * rlog p + (1 - y) * rlog (1 - p)))
        y_true (y_pred.map (clipQ epsilon (1 - epsilon))))) ∧
    binary_focal_cross_entropy rlog rpow y_true y_pred gamma alpha epsilon =
      .ok (meanQ (List.zipWith (fun y p => -(alpha * rpow (1 - p) gamma * y * rlog p
        + (1 - alpha) * rpow p gamma * (1 - y) * rlog (1 - p)))
        y_true (y_pred.map (clipQ epsilon (1 - epsilon))))) ∧
    (epsilon ≤ 1 - epsilon →
      ∀ x ∈ y_pred.map (clipQ epsilon (1 - epsilon)),
        epsilon ≤ x ∧ x ≤ 1 - epsilon) := by
  refine ⟨?_, ?_, ?_⟩
  · unfold binary_cross_entropy
    rw [if_neg (by simp [h])]
  · unfold binary_focal_cross_entropy
    rw [if_neg (by simp [h])]
  · intro hε x hx
    rw [List.mem_map] at hx
    obtain ⟨y, _, rfl⟩ := hx
    unfold clipQ
    exact ⟨le_min hε (le_max_left _ _), min_le_left _ _⟩

/-- C10 witness: labels outside {0,1} and predictions outside (0,1) are
accepted; with the constant-zero stand-ins for `log` and `**` both losses
evaluate to 0, and the out-of-range prediction 3/2 is clipped into
`[1/10, 9/10]`. -/
theorem bce_bfce_no_domain_validation_witness :
    ([2, -1] : List ℚ).length = ([3/2, -3/10] : List ℚ).length ∧
    ((1 : ℚ)/10 ≤ 1 - 1/10) ∧
    binary_cross_entropy (fun _ => 0) [2, -1] [3/2, -3/10] (1/10) = .ok 0 ∧
    binary_focal_cross_entropy (fun _ => 0) (fun _ _ => 0) [2, -1] [3/2, -3/10]
      2 (1/4) (1/10) = .ok 0 ∧
    ((1 : ℚ)/10 ≤ clipQ (1/10) (1 - 1/10) (3/2) ∧
      clipQ (1/10) (1 - 1/10) (3/2) ≤ 1 - 1/10) := by
  refine ⟨rfl, by norm_num, ?_, ?_, ?_⟩
  · rw [(bce_bfce_no_domain_validation (fun _ => 0) (fun _ _ => 0)
      [2, -1] [3/2, -3/10] 2 (1/4) (1/10) rfl).1]
    norm_num [meanQ, List.zipWith, clipQ]
  · rw [(bce_bfce_no_domain_validation (fun _ => 0) (fun _ _ => 0)
      [2, -1] [3/2, -3/10] 2 (1/4) (1/10) rfl).2.1]
    norm_num [meanQ, List.zipWith, clipQ]
  · exact (bce_bfce_no_domain_validation (fun _ => 0) (fun _ _ => 0)
      [2, -1] [3/2, -3/10] 2 (1/4) (1/10) rfl).2.2 (by norm_num)
      (clipQ (1/10) (1 - 1/10) (3/2)) (by simp)

/-- C1 counterexample: the bound check of `perplexity_loss` is strict
(`np.max(y_true) > vocab_size`), so with vocabulary size 5 a label equal
to 5 passes validation and the call fails during one-hot selection with an
`IndexError` — not with the `InvalidInput` error the claim requires. -/
theorem perplexity_loss_label_equal_vocab_counterexample :
    perplexity_loss (fun _ => 0) (fun _ => 0) [[1, 4], [2, 5]]
      [[[0.28, 0.19, 0.21, 0.15, 0.15], [0.24, 0.19, 0.09, 0.18, 0.27]],
       [[0.03, 0.26, 0.21, 0.18, 0.30], [0.28, 0.10, 0.33, 0.15, 0.12]]]
      (1 / 10 ^ 7) = .error .indexError := by
  decide

/-- C1 amended: `perplexity_loss` raises `InvalidInput` when some label is
strictly greater than the vocabulary size (given matching batch sizes and
sentence lengths); a label equal to the vocabulary size passes this
validation. -/
theorem perplexity_loss_strict_label_check (rlog rexp : ℚ → ℚ)
    (y_true : List (List ℤ)) (y_pred : List (List (List ℚ))) (ε : ℚ)
    (hb : y_true.length = y_pred.length)
    (hs : (y_true.headD []).length = (y_pred.headD []).length)
    (hl : ∃ s ∈ y_true, ∃ w ∈ s, (vocabSize y_pred : ℤ) < w) :
    perplexity_loss rlog rexp y_true y_pred ε =
      .error (.invalidInput .labelTooLarge) := by
  unfold perplexity_loss
  rw [if_neg (by simp [hb]), if_neg (fun hne => hne hs), if_pos hl]

/-- C1 amended witness: the docstring example with the out-of-range label 11
(vocabulary size 5) is rejected with `InvalidInput`. -/
theorem perplexity_loss_strict_label_check_witness :
    ([[1, 4], [2, 11]] : List (List ℤ)).length =
      ([[[(0.28 : ℚ), 0.19, 0.21, 0.15, 0.15], [0.24, 0.19, 0.09, 0.18, 0.27]],
        [[0.03, 0.26, 0.21, 0.18, 0.30],
          [0.28, 0.10, 0.33, 0.15, 0.12]]]).length ∧
    (∃ s ∈ ([[1, 4], [2, 11]] : List (List ℤ)), ∃ w ∈ s,
      ((vocabSize [[[(0.28 : ℚ), 0.19, 0.21, 0.15, 0.15],
        [0.24, 0.19, 0.09, 0.18, 0.27]],
        [[0.03, 0.26, 0.21, 0.18, 0.30],
          [0.28, 0.10, 0.33, 0.15, 0.12]]] : ℤ)) < w) ∧
    perplexity_loss (fun _ => 0) (fun _ => 0) [[1, 4], [2, 11]]
      [[[0.28, 0.19, 0.21, 0.15, 0.15], [0.24, 0.19, 0.09, 0.18, 0.27]],
       [[0.03, 0.26, 0.21, 0.18, 0.30], [0.28, 0.10, 0.33, 0.15, 0.12]]]
      (1 / 10 ^ 7) = .error (.invalidInput .labelTooLarge) := by
  refine ⟨rfl, ?_, ?_⟩
  · exact ⟨[2, 11], by simp, 11, by simp, by decide⟩
  · exact perplexity_loss_strict_label_check (fun _ => 0) (fun _ => 0)
      [[1, 4], [2, 11]] _ (1 / 10 ^ 7) rfl rfl
      ⟨[2, 11], by simp, 11, by simp, by decide⟩

/-- C4: given equal shapes, `categorical_cross_entropy` rejects a `y_true`
with an entry outside {0,1} or a row sum different from 1 (`notOneHot`),
then rejects a `y_pred` with a row sum farther from 1 than the
`np.isclose` tolerance `epsilon + epsilon * |1|` (`predNotNormalized`), and
returns a loss value exactly when both checks pass. -/
theorem categorical_cross_entropy_validation (rlog : ℚ → ℚ)
    (y_true y_pred : List (List ℚ)) (ε : ℚ)
    (hs : shape2 y_true = shape2 y_pred) :
    (((∃ r ∈ y_true, ∃ x ∈ r, x ≠ 0 ∧ x ≠ 1) ∨ (∃ r ∈ y_true, r.sum ≠ 1)) →
      categorical_cross_entropy rlog y_true y_pred ε =
        .error (.invalidInput .notOneHot)) ∧
    ((∀ r ∈ y_true, (∀ x ∈ r, x = 0 ∨ x = 1) ∧ r.sum = 1) →
      (∃ r ∈ y_pred, ¬ np_isclose ε ε r.sum 1) →
      categorical_cross_entropy rlog y_true y_pred ε =
        .error (.invalidInput .predNotNormalized)) ∧
    ((∀ r ∈ y_true, (∀ x ∈ r, x = 0 ∨ x = 1) ∧ r.sum = 1) →
      (∀ r ∈ y_pred, np_isclose ε ε r.sum 1) →
      ∃ v, categorical_cross_entropy rlog y_true y_pred ε = .ok v) := by
  have hone : (∀ r ∈ y_true, (∀ x ∈ r, x = 0 ∨ x = 1) ∧ r.sum = 1) →
      ¬ ((∃ r ∈ y_true, ∃ x ∈ r, x ≠ 0 ∧ x ≠ 1) ∨ (∃ r ∈ y_true, r.sum ≠ 1)) := by
    intro h1
    rintro (⟨r, hr, x, hx, h0, h1'⟩ | ⟨r, hr, hsum⟩)
    · rcases (h1 r hr).1 x hx with h | h
      · exact h0 h
      · exact h1' h
    · exact hsum (h1 r hr).2
  refine ⟨?_, ?_, ?_⟩
  · intro hbad
    unfold categorical_cross_entropy
    rw [if_neg (by simp [hs]), if_pos hbad]
  · intro h1 h2
    unfold categorical_cross_entropy
    rw [if_neg (by simp [hs]), if_neg (hone h1), if_pos]
    intro hall
    obtain ⟨r, hr, hnc⟩ := h2
    exact hnc (hall r hr)
  · intro h1 h2
    exact ⟨_, by
      unfold categorical_cross_entropy
      rw [if_neg (by simp [hs]), if_neg (hone h1), if_neg (by simpa using h2)]⟩

/-- C4 witness: with the docstring inputs, an entry 2 in `y_true` yields
`notOneHot`, a `y_pred` row summing to 1.1 yields `predNotNormalized`, and
the valid docstring pair passes both validations. -/
theorem categorical_cross_entropy_validation_witness :
    shape2 [[(2 : ℚ), 0, 1], [1, 0, 0]] =
      shape2 [[(0.9 : ℚ), 0.1, 0.0], [0.2, 0.7, 0.1]] ∧
    ((∃ r ∈ [[(2 : ℚ), 0, 1], [1, 0, 0]], ∃ x ∈ r, x ≠ 0 ∧ x ≠ 1) ∨
      (∃ r ∈ [[(2 : ℚ), 0, 1], [1, 0, 0]], r.sum ≠ 1)) ∧
    categorical_cross_entropy (fun _ => 0) [[2, 0, 1], [1, 0, 0]]
      [[0.9, 0.1, 0.0], [0.2, 0.7, 0.1]] (1 / 10 ^ 15) =
      .error (.invalidInput .notOneHot) ∧
    categorical_cross_entropy (fun _ => 0) [[1, 0, 0], [0, 1, 0]]
      [[0.9, 0.1, 0.1], [0.2, 0.7, 0.1]] (1 / 10 ^ 15) =
      .error (.invalidInput .predNotNormalized) ∧
    categorical_cross_entropy (fun _ => 1) [[1, 0, 0], [0, 1, 0]]
      [[0.9, 0.1, 0.0], [0.2, 0.7, 0.1]] (1 / 10 ^ 15) = .ok (-2) := by
  refine ⟨rfl, ?_, ?_, ?_, ?_⟩
  · exact Or.inl ⟨[2, 0, 1], by simp, 2, by simp, by norm_num, by norm_num⟩
  · exact (categorical_cross_entropy_validation (fun _ => 0)
      [[2, 0, 1], [1, 0, 0]] [[0.9, 0.1, 0.0], [0.2, 0.7, 0.1]]
      (1 / 10 ^ 15) rfl).1
      (Or.inl ⟨[2, 0, 1], List.mem_cons_self _ _, 2, List.mem_cons_self _ _,
        by norm_num, by norm_num⟩)
  · refine (categorical_cross_entropy_validation (fun _ => 0)
      [[1, 0, 0], [0, 1, 0]] [[0.9, 0.1, 0.1], [0.2, 0.7, 0.1]]
      (1 / 10 ^ 15) rfl).2.1
      (by norm_num) ⟨[0.9, 0.1, 0.1], List.mem_cons_self _ _, ?_⟩
    unfold np_isclose
    norm_num
    rw [abs_of_pos (by norm_num : (0 : ℚ) < 1 / 10)]
    norm_num
  · have hone : ¬ ((∃ r ∈ ([[1, 0, 0], [0, 1, 0]] : List (List ℚ)),
        ∃ x ∈ r, x ≠ 0 ∧ x ≠ 1) ∨
        (∃ r ∈ ([[1, 0, 0], [0, 1, 0]] : List (List ℚ)), r.sum ≠ 1)) := by
      norm_num
    have hcl : ¬ ¬ (∀ r ∈ ([[0.9, 0.1, 0.0], [0.2, 0.7, 0.1]] : List (List ℚ)),
        np_isclose (1 / 10 ^ 15) (1 / 10 ^ 15) r.sum 1) := by
      norm_num [np_isclose]
    unfold categorical_cross_entropy
    rw [if_neg (by norm_num [shape2]), if_neg hone, if_neg hcl]
    show Except.ok (-(List.zipWith
      (fun rt rp => (List.zipWith (fun a b => a * b) rt
        (rp.map (fun _ => (1 : ℚ)))).sum)
      [[1, 0, 0], [0, 1, 0]]
      (([[0.9, 0.1, 0.0], [0.2, 0.7, 0.1]] : List (List ℚ)).map
        (fun r => r.map (clipQ (1 / 10 ^ 15) 1)))).sum) = Except.ok (-2)
    norm_num [clipQ, List.zipWith]

/-- C8: no loss function mutates its input arrays.  In the store model every
array operation of the source allocates a fresh array at the end of the
store, so after any call every array that existed before the call is
unchanged at its index. -/
theorem loss_functions_no_mutation (rlog rexp rlog1p rsqrt : ℚ → ℚ)
    (rpow : ℚ → ℚ → ℚ) (st : Store) (iT iP : ℕ)
    (gamma alpha delta m ε : ℚ) (i : ℕ) (d : NpValue) (h : i < st.length) :
    (binary_cross_entropy_st rlog st iT iP ε).1.getD i d = st.getD i d ∧
    (binary_focal_cross_entropy_st rlog rpow st iT iP gamma alpha ε).1.getD i d
      = st.getD i d ∧
    (categorical_cross_entropy_st rlog st iT iP ε).1.getD i d = st.getD i d ∧
    (hinge_loss_st st iT iP).1.getD i d = st.getD i d ∧
    (huber_loss_st st iT iP delta).1.getD i d = st.getD i d ∧
    (mean_squared_error_st st iT iP).1.getD i d = st.getD i d ∧
    (mean_absolute_error_st st iT iP).1.getD i d = st.getD i d ∧
    (mean_squared_logarithmic_error_st rlog1p st iT iP).1.getD i d
      = st.getD i d ∧
    (mean_absolute_percentage_error_st st iT iP ε).1.getD i d = st.getD i d ∧
    (perplexity_loss_st rlog rexp st iT iP ε).1.getD i d = st.getD i d ∧
    (contrastive_loss_st rsqrt st iT iP m).1.getD i d = st.getD i d := by
  refine ⟨?_, ?_, ?_, ?_, ?_, ?_, ?_, ?_, ?_, ?_, ?_⟩
  · unfold binary_cross_entropy_st
    dsimp only
    split
    · rfl
    · exact getD_append_left st _ d i h
  · unfold binary_focal_cross_entropy_st
    dsimp only
    split
    · rfl
    · exact getD_append_left st _ d i h
  · unfold categorical_cross_entropy_st
    dsimp only
    split
    · rfl
    split
    · rfl
    split
    · rfl
    · exact getD_append_left st _ d i h
  · unfold hinge_loss_st
    dsimp only
    split
    · rfl
    split
    · rfl
    · exact getD_append_left st _ d i h
  · unfold huber_loss_st
    dsimp only
    split
    · rfl
    · exact getD_append_left st _ d i h
  · unfold mean_squared_error_st
    dsimp only
    split
    · rfl
    · exact getD_append_left st _ d i h
  · unfold mean_absolute_error_st
    dsimp only
    split
    · rfl
    · exact getD_append_left st _ d i h
  · unfold mean_squared_logarithmic_error_st
    dsimp only
    split
    · rfl
    · exact getD_append_left st _ d i h
  · unfold mean_absolute_percentage_error_st
    dsimp only
    split
    · rfl
    · exact getD_append_left st _ d i h
  · unfold perplexity_loss_st
    dsimp only
    split
    · rfl
    split
    · rfl
    split
    · rfl
    split
    · rfl
    · exact getD_append_left st _ d i h
  · unfold contrastive_loss_st
    dsimp only
    split
    · rfl
    split
    · rfl
    split
    · rfl
    · exact getD_append_left st _ d i h

/-- C8 witness: over the concrete one-array store `[.a1 [1, 2]]` every
store-level call leaves the stored array unchanged. -/
theorem loss_functions_no_mutation_witness :
    (0 < ([NpValue.a1 [1, 2]] : Store).length) ∧
    ((binary_cross_entropy_st (fun _ => 0) [NpValue.a1 [1, 2]] 0 0 1).1.getD 0
        (NpValue.a1 []) = ([NpValue.a1 [1, 2]] : Store).getD 0 (NpValue.a1 []) ∧
      (binary_focal_cross_entropy_st (fun _ => 0) (fun _ _ => 0)
        [NpValue.a1 [1, 2]] 0 0 2 (1/4) 1).1.getD 0 (NpValue.a1 [])
        = ([NpValue.a1 [1, 2]] : Store).getD 0 (NpValue.a1 []) ∧
      (categorical_cross_entropy_st (fun _ => 0) [NpValue.a1 [1, 2]] 0 0 1).1.getD
        0 (NpValue.a1 []) = ([NpValue.a1 [1, 2]] : Store).getD 0 (NpValue.a1 []) ∧
      (hinge_loss_st [NpValue.a1 [1, 2]] 0 0).1.getD 0 (NpValue.a1 [])
        = ([NpValue.a1 [1, 2]] : Store).getD 0 (NpValue.a1 []) ∧
      (huber_loss_st [NpValue.a1 [1, 2]] 0 0 1).1.getD 0 (NpValue.a1 [])
        = ([NpValue.a1 [1, 2]] : Store).getD 0 (NpValue.a1 []) ∧
      (mean_squared_error_st [NpValue.a1 [1, 2]] 0 0).1.getD 0 (NpValue.a1 [])
        = ([NpValue.a1 [1, 2]] : Store).getD 0 (NpValue.a1 []) ∧
      (mean_absolute_error_st [NpValue.a1 [1, 2]] 0 0).1.getD 0 (NpValue.a1 [])
        = ([NpValue.a1 [1, 2]] : Store).getD 0 (NpValue.a1 []) ∧
      (mean_squared_logarithmic_error_st (fun _ => 0)
        [NpValue.a1 [1, 2]] 0 0).1.getD 0 (NpValue.a1 [])
        = ([NpValue.a1 [1, 2]] : Store).getD 0 (NpValue.a1 []) ∧
      (mean_absolute_percentage_error_st [NpValue.a1 [1, 2]] 0 0 1).1.getD 0
        (NpValue.a1 []) = ([NpValue.a1 [1, 2]] : Store).getD 0 (NpValue.a1 []) ∧
      (perplexity_loss_st (fun _ => 0) (fun _ => 0)
        [NpValue.a1 [1, 2]] 0 0 1).1.getD 0 (NpValue.a1 [])
        = ([NpValue.a1 [1, 2]] : Store).getD 0 (NpValue.a1 []) ∧
      (contrastive_loss_st (fun _ => 0) [NpValue.a1 [1, 2]] 0 0 1).1.getD 0
        (NpValue.a1 []) = ([NpValue.a1 [1, 2]] : Store).getD 0 (NpValue.a1 [])) :=
  ⟨Nat.zero_lt_succ 0,
    loss_functions_no_mutation (fun _ => 0) (fun _ => 0) (fun _ => 0)
      (fun _ => 0) (fun _ _ => 0) [NpValue.a1 [1, 2]] 0 0 2 (1/4) 1 1 1 0
      (NpValue.a1 []) (Nat.zero_lt_succ 0)⟩

/-- C5: for valid inputs `contrastive_loss` returns the sum, over pairs with
target 0, of the Euclidean distance `d` between the pair's two vectors, plus
the sum, over pairs with target 1, of `max(0, m - d)`; and on the spec's
example (two 2x5 pairs, target `[0, 1]`, `m = 10`) the value is within
`10^-9` of `9.986418202141381`. -/
theorem contrastive_loss_formula_and_example :
    (∀ (inputs : List (List (List ℝ))) (target : List ℤ) (m : ℝ),
      inputs.length = target.length →
      (inputs.headD []).length = 2 →
      (∀ t ∈ target, t = 0 ∨ t = 1) →
      contrastive_loss inputs target m =
        .ok ((List.zipWith (fun t d => if t = 0 then d else 0) target
            (inputs.map (fun p =>
              euclideanDist (p.headD []) ((p.drop 1).headD [])))).sum
          + (List.zipWith (fun t d => if t = 1 then max 0 (m - d) else 0) target
            (inputs.map (fun p =>
              euclideanDist (p.headD []) ((p.drop 1).headD [])))).sum)) ∧
    (∃ v : ℝ, contrastive_loss
        [[[0.06796051, 0.86319405, 0.83875762, 0.4246106, 0.4142061],
          [0.1648123, 0.23396954, 0.26760326, 0.90300768, 0.82789254]],
         [[0.73989664, 0.929347, 0.37955765, 0.17692685, 0.09868801],
          [0.23727054, 0.41889803, 0.44162983, 0.9783071, 0.06199906]]]
        [0, 1] 10 = .ok v ∧ |v - 9.986418202141381| < 1 / 1000000000) := by
  constructor
  · intro inputs target m hlen hhead htgt
    unfold contrastive_loss
    rw [if_neg (by simp [hlen]), if_neg (fun hne => hne hhead),
      if_neg (by
        rintro ⟨t, ht, h1, h0⟩
        rcases htgt t ht with rfl | rfl
        · exact h0 rfl
        · exact h1 rfl)]
    dsimp only
    simp only [euclideanDist]
    congr 1
    congr 1
    refine congrArg List.sum (zipWith_congr_of_mem _ _ target _ ?_)
    intro t ht d _
    rcases htgt t ht with rfl | rfl
    · norm_num
    · norm_num
  · refine ⟨Real.sqrt 1.1315212929503538
      + max 0 (10 - Real.sqrt 1.1606004870473883), ?_, ?_⟩
    · unfold contrastive_loss
      rw [if_neg (fun hne => hne rfl), if_neg (fun hne => hne rfl),
        if_neg (by decide)]
      dsimp only
      simp only [List.map_cons, List.map_nil, List.zipWith_cons_cons,
        List.zipWith_nil_right, List.sum_cons, List.sum_nil, reduceIte]
      norm_num
    · have hA1 : (1.06372989661396 : ℝ) < Real.sqrt 1.1315212929503538 := by
        rw [Real.lt_sqrt (by norm_num)]
        norm_num
      have hA2 : Real.sqrt (1.1315212929503538 : ℝ) < 1.06372989661397 := by
        rw [Real.sqrt_lt' (by norm_num)]
        norm_num
      have hB1 : (1.07731169447258 : ℝ) < Real.sqrt 1.1606004870473883 := by
        rw [Real.lt_sqrt (by norm_num)]
        norm_num
      have hB2 : Real.sqrt (1.1606004870473883 : ℝ) < 1.07731169447259 := by
        rw [Real.sqrt_lt' (by norm_num)]
        norm_num
      rw [max_eq_right
        (by linarith : (0 : ℝ) ≤ 10 - Real.sqrt 1.1606004870473883)]
      rw [abs_sub_lt_iff]
      constructor <;> linarith

/-- C5 witness: the formula at a concrete one-pair batch with target 0 and
`m = 5`: `contrastive_loss([[[3],[7]]], [0], 5)` equals the distance term
alone. -/
theorem contrastive_loss_formula_and_example_witness :
    ([[[(3 : ℝ)], [7]]] : List (List (List ℝ))).length = ([0] : List ℤ).length ∧
    (([[[(3 : ℝ)], [7]]] : List (List (List ℝ))).headD []).length = 2 ∧
    (∀ t ∈ ([0] : List ℤ), t = 0 ∨ t = 1) ∧
    contrastive_loss [[[(3 : ℝ)], [7]]] [0] 5 =
      .ok ((List.zipWith (fun t d => if t = 0 then d else 0) ([0] : List ℤ)
          (([[[(3 : ℝ)], [7]]] : List (List (List ℝ))).map (fun p =>
            euclideanDist (p.headD []) ((p.drop 1).headD [])))).sum
        + (List.zipWith (fun t d => if t = 1 then max 0 ((5 : ℝ) - d) else 0)
          ([0] : List ℤ)
          (([[[(3 : ℝ)], [7]]] : List (List (List ℝ))).map (fun p =>
            euclideanDist (p.headD []) ((p.drop 1).headD [])))).sum) := by
  refine ⟨rfl, rfl, ?_, ?_⟩
  · intro t ht
    rcases List.mem_cons.mp ht with rfl | h
    · exact Or.inl rfl
    · cases h
  · exact contrastive_loss_formula_and_example.1 [[[(3 : ℝ)], [7]]] [0] 5 rfl rfl
      (by
        intro t ht
        rcases List.mem_cons.mp ht with rfl | h
        · exact Or.inl rfl
        · cases h)

end LossFunctions
